import Mathlib

/-!
Verification of the disk-repair manager of the blobstore scheduler.

The repository copy at hand contains the repairer's test file
(`blobstore/scheduler/disk_repairer_test.go`) but not `disk_repairer.go`
itself, so the manager's data model and operations below are modelled from
the specification (spec.md), with the repository's tests pinning the
observable behaviour (call order, error versus panic, queue counts).

External collaborators (cluster-manager client, persistence adapter) are
modelled as explicit call-result environments passed to each operation;
the persisted task table is carried in the manager state, and a call that
may fail carries its outcome in the environment.
-/

namespace DiskRepair

/-- Modelled from the spec: `proto.Vuid` (missing from src/) encodes the
triple (volume id, index within volume, epoch); epoch strictly increases
on replacement. -/
structure Vuid where
  vid : Nat
  index : Nat
  epoch : Nat
deriving DecidableEq

/-- Modelled from the spec: repair-task state values of `proto.RepairState`
(missing from src/). States are numeric so that unknown persisted values
(such as 111 in the repository's load test) are representable. -/
def RepairStateInited : Nat := 1

/-- Modelled from the spec: the Prepared state value. -/
def RepairStatePrepared : Nat := 2

/-- Modelled from the spec: the WorkCompleted state value. -/
def RepairStateWorkCompleted : Nat := 3

/-- Modelled from the spec: the FinishedInAdvance terminal state value. -/
def RepairStateFinishedInAdvance : Nat := 4

/-- Modelled from the spec: the Finished terminal state value. -/
def RepairStateFinished : Nat := 5

/-- Modelled from the spec: a state is one of the five states of the task
state machine. -/
def isKnownState (s : Nat) : Bool :=
  decide (s = RepairStateInited) || decide (s = RepairStatePrepared) ||
  decide (s = RepairStateWorkCompleted) || decide (s = RepairStateFinishedInAdvance) ||
  decide (s = RepairStateFinished)

/-- Modelled from the spec: terminal states are `FinishedInAdvance` and
`Finished`. -/
def isTerminalState (s : Nat) : Bool :=
  decide (s = RepairStateFinishedInAdvance) || decide (s = RepairStateFinished)

/-- Modelled from the spec: `proto.VolRepairTask` (missing from src/), the
persisted per-unit repair descriptor: task id, state, source (broken) disk
id, source idc, bad vuid, and the destination allocated by prepare (unset
until prepare succeeds). -/
structure VolRepairTask where
  taskID : String
  state : Nat
  brokenDiskID : Nat
  idc : String
  badVuid : Vuid
  destination : Option Vuid
deriving DecidableEq

/-- Modelled from the spec: `client.DiskInfoSimple` (missing from src/),
restricted to the fields the repairer consumes: disk id and idc. -/
structure DiskInfo where
  diskID : Nat
  idc : String
deriving DecidableEq

/-- Modelled from the spec: `client.VunitInfoSimple` (missing from src/),
a volume unit residing on a disk. -/
structure VunitInfo where
  vuid : Vuid
  diskID : Nat
deriving DecidableEq

/-- Modelled from the spec: `client.VolumeInfoSimple` (missing from src/),
restricted to the ordered unit locations; position in the list is the
unit index. -/
structure VolumeInfoSimple where
  vunitVuids : List Vuid
deriving DecidableEq

/-- Modelled from the spec: the error values the repairer distinguishes
(transient mock errors, the volume-commit mismatch errors, queue-empty and
not-found). -/
inductive Err where
  | mock
  | oldVuidNotMatch
  | newVuidNotMatch
  | statChunkFailed
  | noTaskInQueue
  | notFound
deriving DecidableEq

/-- Modelled from the spec: result of a worker-facing or loop operation
that cannot panic: success or a typed error. -/
inductive OpRes where
  | ok
  | err (e : Err)
deriving DecidableEq

/-- Modelled from the spec: the `DiskRepairMgr` state (missing from src/):
the single repairing disk id (0 = none), the `hasRevised` latch, the three
in-memory queues, and the persisted task table. The work queue is a list
of (idc, task) pairs. -/
structure DiskRepairMgr where
  repairingDiskID : Nat
  hasRevised : Bool
  prepareQueue : List VolRepairTask
  workQueue : List (String × VolRepairTask)
  finishQueue : List VolRepairTask
  taskTbl : List VolRepairTask
deriving DecidableEq

/-- Modelled from the spec: `base.EmptyDiskID`, the absent-disk sentinel. -/
def EmptyDiskID : Nat := 0

/-- Modelled from the spec: the freshly constructed manager, with no
repairing disk and empty queues. -/
def emptyMgr : DiskRepairMgr :=
  { repairingDiskID := EmptyDiskID
    hasRevised := false
    prepareQueue := []
    workQueue := []
    finishQueue := []
    taskTbl := [] }

/-- Modelled from the spec: the persistence adapter's query by source disk
id over the persisted task table. -/
def tasksOfDisk (tbl : List VolRepairTask) (d : Nat) : List VolRepairTask :=
  tbl.filter (fun t => decide (t.brokenDiskID = d))

/-- Modelled from the spec: the persistence adapter's update of the record
keyed by task id. -/
def tblUpdate (tbl : List VolRepairTask) (t : VolRepairTask) : List VolRepairTask :=
  tbl.map (fun x => if x.taskID = t.taskID then t else x)

/-- Modelled from the spec: `base.GenTaskID` task-id shape
`"disk-repair-<vid>-<nonce>"`, with the unit index as the nonce. -/
def genTaskID (v : Vuid) : String :=
  "disk-repair-" ++ toString v.vid ++ "-" ++ toString v.index

/-- Modelled from the spec: a task record freshly generated by the collect
loop for one volume unit on the adopted disk, in `Inited` state with the
destination unset. -/
def mkRepairTask (d : DiskInfo) (v : Vuid) : VolRepairTask :=
  { taskID := genTaskID v
    state := RepairStateInited
    brokenDiskID := d.diskID
    idc := d.idc
    badVuid := v
    destination := none }

/-- Modelled from the spec: task generation for a disk: one task per volume
unit on the disk, skipping units whose task is already persisted (matched
by bad vuid). -/
def genDiskRepairTasks (d : DiskInfo) (units : List VunitInfo)
    (persisted : List VolRepairTask) : List VolRepairTask :=
  (units.filter (fun u => !(persisted.any (fun t => decide (t.badVuid = u.vuid))))).map
    (fun u => mkRepairTask d u.vuid)

/-- Modelled from the spec: the external call results one `collectTask`
tick may consume: the disk info of the already-adopted disk (revise
branch), the broken-disk listing, the unit listing of the processed disk,
whether the per-disk persistence query fails, whether the per-task
persistence inserts succeed, and the `SetDiskRepairing` outcome. -/
structure CollectEnv where
  getDiskInfo : Except Err DiskInfo
  listBrokenDisks : Except Err (List DiskInfo)
  listDiskVolumeUnits : Except Err (List VunitInfo)
  findFails : Bool
  insertOk : Bool
  setDiskRepairing : Except Err Unit

/-- Modelled from the spec: one tick of the collect loop of
`DiskRepairMgr.collectTask` (missing from src/). With a disk adopted and
`hasRevised` false it re-derives the disk's task set and enqueues missing
tasks, then latches `hasRevised`. With no disk adopted and `hasRevised`
true it lists broken disks, picks the first, generates one `Inited` task
per unit skipping already-persisted ones, inserts each (persist then
enqueue into `prepareQueue`), calls `SetDiskRepairing`, and sets
`repairingDiskID`. Failures abort the tick. The returned flag records
whether `SetDiskRepairing` was invoked. -/
def collectTask (mgr : DiskRepairMgr) (env : CollectEnv) : DiskRepairMgr × Bool :=
  if mgr.repairingDiskID ≠ EmptyDiskID ∧ mgr.hasRevised = false then
    match env.getDiskInfo with
    | .error _ => (mgr, false)
    | .ok d =>
      if env.findFails then (mgr, false)
      else
        match env.listDiskVolumeUnits with
        | .error _ => (mgr, false)
        | .ok units =>
          if env.insertOk then
            let ts := genDiskRepairTasks d units (tasksOfDisk mgr.taskTbl mgr.repairingDiskID)
            ({ mgr with
                taskTbl := mgr.taskTbl ++ ts
                prepareQueue := mgr.prepareQueue ++ ts
                hasRevised := true }, false)
          else (mgr, false)
  else if mgr.repairingDiskID = EmptyDiskID ∧ mgr.hasRevised = true then
    match env.listBrokenDisks with
    | .error _ => (mgr, false)
    | .ok [] => (mgr, false)
    | .ok (d :: _) =>
      if env.findFails then (mgr, false)
      else
        match env.listDiskVolumeUnits with
        | .error _ => (mgr, false)
        | .ok units =>
          if env.insertOk then
            let ts := genDiskRepairTasks d units (tasksOfDisk mgr.taskTbl d.diskID)
            match env.setDiskRepairing with
            | .error _ =>
              ({ mgr with
                  taskTbl := mgr.taskTbl ++ ts
                  prepareQueue := mgr.prepareQueue ++ ts }, true)
            | .ok _ =>
              ({ mgr with
                  taskTbl := mgr.taskTbl ++ ts
                  prepareQueue := mgr.prepareQueue ++ ts
                  repairingDiskID := d.diskID }, true)
          else (mgr, false)
  else (mgr, false)

/-- Modelled from the spec: the external call results one
`popTaskAndPrepare` invocation may consume: the volume fetch, the
replacement-unit allocation, and the persistence update. -/
structure PrepareEnv where
  getVolumeInfo : Except Err VolumeInfoSimple
  allocVolumeUnit : Except Err Vuid
  update : Except Err Unit

/-- Modelled from the spec: `DiskRepairMgr.popTaskAndPrepare` (missing
from src/). Dequeues one task from `prepareQueue`; fetches the volume; if
the current vuid at the damaged index differs from the bad vuid, the task
is finished in advance (persist, drop); otherwise a replacement unit is
allocated, the task becomes `Prepared` with the allocation as destination,
is persisted, and is inserted into `workQueue` under its source idc.
Transient failures leave the task in `prepareQueue`. -/
def popTaskAndPrepare (mgr : DiskRepairMgr) (env : PrepareEnv) : DiskRepairMgr × OpRes :=
  match mgr.prepareQueue with
  | [] => (mgr, .err .noTaskInQueue)
  | task :: rest =>
    match env.getVolumeInfo with
    | .error e => (mgr, .err e)
    | .ok vol =>
      if vol.vunitVuids.get? task.badVuid.index ≠ some task.badVuid then
        match env.update with
        | .error e => (mgr, .err e)
        | .ok _ =>
          ({ mgr with
              prepareQueue := rest
              taskTbl := tblUpdate mgr.taskTbl { task with state := RepairStateFinishedInAdvance } }, .ok)
      else
        match env.allocVolumeUnit with
        | .error e => (mgr, .err e)
        | .ok nv =>
          match env.update with
          | .error e => (mgr, .err e)
          | .ok _ =>
            ({ mgr with
                prepareQueue := rest
                workQueue := mgr.workQueue ++
                  [(task.idc, { task with state := RepairStatePrepared, destination := some nv })]
                taskTbl := tblUpdate mgr.taskTbl
                  { task with state := RepairStatePrepared, destination := some nv } }, .ok)

/-- Modelled from the spec: the external call results one
`popTaskAndFinish` invocation may consume: the upfront persistence update
of the popped task, the volume commit, the reallocation, and the final
persistence update. -/
structure FinishEnv where
  update1 : Except Err Unit
  updateVolume : Except Err Unit
  allocVolumeUnit : Except Err Vuid
  update2 : Except Err Unit

/-- Modelled from the spec: the outcome of the finalize loop body: success,
a typed transient error, or a fatal invariant violation (process abort). -/
inductive FinishResult where
  | ok
  | err (e : Err)
  | fatal
deriving DecidableEq

/-- Modelled from the spec: result record of `popTaskAndFinish`: the new
manager state, the outcome, and the number of persistence updates the call
attempted. -/
structure FinishOut where
  mgr : DiskRepairMgr
  res : FinishResult
  updates : Nat
deriving DecidableEq

/-- Modelled from the spec: `DiskRepairMgr.popTaskAndFinish` (missing from
src/). Dequeues one task from `finishQueue`; a state other than
`WorkCompleted` is fatal. The popped record is persisted, then the volume
commit is issued: on success the task becomes `Finished`, is persisted and
dropped; `ErrOldVuidNotMatch` is fatal; `ErrNewVuidNotMatch` and
`ErrStatChunkFailed` trigger reallocation of a replacement unit, a
destination update rewinding the task to `Prepared`, a persistence update,
and reinsertion into `workQueue`; other errors leave the task queued. -/
def popTaskAndFinish (mgr : DiskRepairMgr) (env : FinishEnv) : FinishOut :=
  match mgr.finishQueue with
  | [] => ⟨mgr, .err .noTaskInQueue, 0⟩
  | task :: rest =>
    if task.state ≠ RepairStateWorkCompleted then ⟨mgr, .fatal, 0⟩
    else
      match env.update1 with
      | .error e => ⟨mgr, .err e, 1⟩
      | .ok _ =>
        let mgr1 : DiskRepairMgr := { mgr with taskTbl := tblUpdate mgr.taskTbl task }
        match env.updateVolume with
        | .ok _ =>
          match env.update2 with
          | .error e => ⟨mgr1, .err e, 2⟩
          | .ok _ =>
            ⟨{ mgr1 with
                finishQueue := rest
                taskTbl := tblUpdate mgr1.taskTbl { task with state := RepairStateFinished } }, .ok, 2⟩
        | .error e =>
          if e = Err.oldVuidNotMatch then ⟨mgr1, .fatal, 1⟩
          else if e = Err.newVuidNotMatch ∨ e = Err.statChunkFailed then
            match env.allocVolumeUnit with
            | .error e2 => ⟨mgr1, .err e2, 1⟩
            | .ok nv =>
              match env.update2 with
              | .error e2 => ⟨mgr1, .err e2, 2⟩
              | .ok _ =>
                ⟨{ mgr1 with
                    finishQueue := rest
                    workQueue := mgr1.workQueue ++
                      [(task.idc, { task with state := RepairStatePrepared, destination := some nv })]
                    taskTbl := tblUpdate mgr1.taskTbl
                      { task with state := RepairStatePrepared, destination := some nv } }, .ok, 2⟩
          else ⟨mgr1, .err e, 1⟩

/-- Modelled from the spec: the external call results one
`checkRepairedAndClear` tick may consume: whether the per-disk persistence
query fails, the unit listing of the repairing disk, the
`SetDiskRepaired` outcome, and whether the bulk delete succeeds. -/
structure CheckEnv where
  findFails : Bool
  listDiskVolumeUnits : Except Err (List VunitInfo)
  setDiskRepaired : Except Err Unit
  deleteOk : Bool

/-- Modelled from the spec: `DiskRepairMgr.checkRepairedAndClear` (missing
from src/). A no-op when no disk is repairing. Otherwise: query the
persisted tasks of the repairing disk; stop if any is non-terminal;
confirm with the cluster manager that the disk has zero remaining units;
call `SetDiskRepaired`; on success bulk-delete the disk's tasks and clear
`repairingDiskID`. Any failure leaves the state unchanged for the next
tick. -/
def checkRepairedAndClear (mgr : DiskRepairMgr) (env : CheckEnv) : DiskRepairMgr :=
  if mgr.repairingDiskID = EmptyDiskID then mgr
  else if env.findFails then mgr
  else if (tasksOfDisk mgr.taskTbl mgr.repairingDiskID).any
      (fun t => !(isTerminalState t.state)) then mgr
  else
    match env.listDiskVolumeUnits with
    | .error _ => mgr
    | .ok units =>
      if units.isEmpty then
        match env.setDiskRepaired with
        | .error _ => mgr
        | .ok _ =>
          if env.deleteOk then
            { mgr with
                taskTbl := mgr.taskTbl.filter
                  (fun t => !(decide (t.brokenDiskID = mgr.repairingDiskID)))
                repairingDiskID := EmptyDiskID }
          else mgr
      else mgr

/-- Modelled from the spec: the persistence results `Load` consumes: the
full scan and the cross-query by the repairing disk id. -/
structure LoadEnv where
  findAll : Except Err (List VolRepairTask)
  findByDiskID : Except Err (List VolRepairTask)

/-- Modelled from the spec: the outcome of startup `Load`: a reconstructed
manager, an ordinary returned error, or a fatal invariant violation
(process abort). -/
inductive LoadResult where
  | ok (mgr : DiskRepairMgr)
  | err (e : Err)
  | fatal
deriving DecidableEq

/-- Modelled from the spec: `DiskRepairMgr.Load` (missing from src/).
Reads all persisted tasks; an unknown state is fatal; with no tasks the
manager starts empty. Otherwise the repairing disk id is taken from the
loaded data and cross-checked against the per-disk persistence query — a
query error is returned as an ordinary error (per the repository's tests
this happens before the same-disk check), a size mismatch is fatal, a task
on a different disk is fatal, a duplicate bad vuid is fatal. Tasks are
dispatched by state: `Inited`/`Prepared` into `prepareQueue`,
`WorkCompleted` into `finishQueue`, terminal states discarded. -/
def load (env : LoadEnv) : LoadResult :=
  match env.findAll with
  | .error e => .err e
  | .ok tasks =>
    if tasks.any (fun t => !(isKnownState t.state)) then .fatal
    else
      match tasks with
      | [] => .ok emptyMgr
      | t0 :: _ =>
        match env.findByDiskID with
        | .error e => .err e
        | .ok byDisk =>
          if tasks.length ≠ byDisk.length then .fatal
          else if tasks.any (fun t => decide (t.brokenDiskID ≠ t0.brokenDiskID)) then .fatal
          else if !(tasks.map (fun t => t.badVuid)).Nodup then .fatal
          else
            .ok { repairingDiskID := t0.brokenDiskID
                  hasRevised := false
                  prepareQueue := tasks.filter
                    (fun t => decide (t.state = RepairStateInited) || decide (t.state = RepairStatePrepared))
                  workQueue := []
                  finishQueue := tasks.filter (fun t => decide (t.state = RepairStateWorkCompleted))
                  taskTbl := tasks }

/-- Modelled from the spec: worker-facing `CompleteTask` (missing from
src/): moves the named task out of `workQueue` into `finishQueue` with
state `WorkCompleted`; an unknown task yields a not-found error. -/
def completeTask (mgr : DiskRepairMgr) (idc tid : String) : DiskRepairMgr × OpRes :=
  match mgr.workQueue.find? (fun e => decide (e.1 = idc) && decide (e.2.taskID = tid)) with
  | none => (mgr, .err .notFound)
  | some e =>
    ({ mgr with
        workQueue := mgr.workQueue.filter
          (fun x => !(decide (x.1 = idc) && decide (x.2.taskID = tid)))
        finishQueue := mgr.finishQueue ++ [{ e.2 with state := RepairStateWorkCompleted }] }, .ok)

/-- Modelled from the spec: worker-facing `ReclaimTask` (missing from
src/): updates the destination of the named task in `workQueue` and
requeues it; the persistence update's failure is logged but the call still
returns success, the task staying reclaimable; only an unknown task yields
an error. -/
def reclaimTask (mgr : DiskRepairMgr) (idc tid : String) (newDest : Vuid)
    (updateOk : Bool) : DiskRepairMgr × OpRes :=
  match mgr.workQueue.find? (fun e => decide (e.1 = idc) && decide (e.2.taskID = tid)) with
  | none => (mgr, .err .notFound)
  | some e =>
    let t1 : VolRepairTask := { e.2 with destination := some newDest }
    let wq := mgr.workQueue.map
      (fun x => if x.1 = idc ∧ x.2.taskID = tid then (x.1, t1) else x)
    if updateOk then ({ mgr with workQueue := wq, taskTbl := tblUpdate mgr.taskTbl t1 }, .ok)
    else ({ mgr with workQueue := wq }, .ok)

/-- Modelled from the spec: worker-facing `Progress` (missing from src/):
returns `(diskId, total, repaired)` for the repairing disk, `EmptyDiskID`
when none; per the repository's tests a failing persistence query still
reports the repairing disk's id. -/
def progress (mgr : DiskRepairMgr) (findFails : Bool) : Nat × Nat × Nat :=
  if mgr.repairingDiskID = EmptyDiskID then (EmptyDiskID, 0, 0)
  else if findFails then (mgr.repairingDiskID, 0, 0)
  else
    (mgr.repairingDiskID,
     (tasksOfDisk mgr.taskTbl mgr.repairingDiskID).length,
     ((tasksOfDisk mgr.taskTbl mgr.repairingDiskID).filter
        (fun t => isTerminalState t.state)).length)

/-- Filtering through a projection has the same length as filtering the
projected list. -/
theorem length_filter_comp {α β : Type} (f : α → β) (p : β → Bool) (l : List α) :
    (l.filter (fun a => p (f a))).length = ((l.map f).filter p).length := by
  induction l with
  | nil => rfl
  | cons a t ih =>
    cases hp : p (f a) <;> simp [List.filter_cons, hp, ih]

/-- Keeping exactly the members of a duplicate-free sublist keeps as many
elements as that sublist has. -/
theorem length_filter_mem {U S : List Vuid} (hU : U.Nodup) (hS : S.Nodup)
    (hsub : ∀ v ∈ S, v ∈ U) :
    (U.filter (fun v => decide (v ∈ S))).length = S.length := by
  have hnodup : (U.filter (fun v => decide (v ∈ S))).Nodup := hU.filter _
  have hperm : (U.filter (fun v => decide (v ∈ S))).Perm S := by
    apply List.perm_of_nodup_nodup_toFinset_eq hnodup hS
    apply List.toFinset.ext
    intro x
    simp only [List.mem_filter, decide_eq_true_eq]
    exact ⟨fun h => h.2, fun h => ⟨hsub x h, h⟩⟩
  exact hperm.length_eq

/-- Dropping exactly the members of a duplicate-free sublist leaves the
length difference. -/
theorem length_filter_not_mem {U S : List Vuid} (hU : U.Nodup) (hS : S.Nodup)
    (hsub : ∀ v ∈ S, v ∈ U) :
    (U.filter (fun v => !(decide (v ∈ S)))).length = U.length - S.length := by
  have hsplit := List.length_eq_length_filter_add (l := U) (fun v => decide (v ∈ S))
  have hmem := length_filter_mem hU hS hsub
  omega

/-- An existing task for a unit's vuid is detected by the any-scan used in
task generation. -/
theorem any_badVuid_eq_mem (persisted : List VolRepairTask) (u : VunitInfo) :
    (persisted.any (fun t => decide (t.badVuid = u.vuid)))
      = decide (u.vuid ∈ persisted.map (fun t => t.badVuid)) := by
  by_cases h : u.vuid ∈ persisted.map (fun t => t.badVuid)
  · rw [decide_eq_true h, List.any_eq_true]
    rcases List.mem_map.mp h with ⟨t, ht, he⟩
    exact ⟨t, ht, by simp [he]⟩
  · rw [decide_eq_false h, List.any_eq_false]
    intro t ht
    simp only [decide_eq_true_eq]
    intro he
    exact h (List.mem_map.mpr ⟨t, ht, he⟩)

/-- Size of the generated task list: one task per unit except units whose
task is already persisted. -/
theorem genDiskRepairTasks_length (d : DiskInfo) (units : List VunitInfo)
    (persisted : List VolRepairTask)
    (hUnodup : (units.map (fun u => u.vuid)).Nodup)
    (hPnodup : (persisted.map (fun t => t.badVuid)).Nodup)
    (hPsub : ∀ t ∈ persisted, t.badVuid ∈ units.map (fun u => u.vuid)) :
    (genDiskRepairTasks d units persisted).length = units.length - persisted.length := by
  unfold genDiskRepairTasks
  rw [List.length_map]
  have hcong : units.filter (fun u => !(persisted.any (fun t => decide (t.badVuid = u.vuid))))
      = units.filter (fun u => !(decide (u.vuid ∈ persisted.map (fun t => t.badVuid)))) := by
    apply List.filter_congr
    intro u _
    rw [any_badVuid_eq_mem]
  rw [hcong]
  have hcomp := length_filter_comp (fun u : VunitInfo => u.vuid)
    (fun v => !(decide (v ∈ persisted.map (fun t => t.badVuid)))) units
  rw [hcomp]
  have hsub' : ∀ v ∈ persisted.map (fun t => t.badVuid), v ∈ units.map (fun u => u.vuid) := by
    intro v hv
    rcases List.mem_map.mp hv with ⟨t, ht, he⟩
    exact he ▸ hPsub t ht
  have := length_filter_not_mem hUnodup hPnodup hsub'
  simpa using this

/-- C1: when `collectTask` runs with `repairingDiskID = 0` and
`hasRevised = true`, `ListBrokenDisks` returns at least one disk, and
every cluster-manager and persistence call succeeds, the manager adopts
the first broken disk: it generates one `Inited` task per volume unit on
that disk except for units whose task is already persisted, so the number
of tasks enqueued into `prepareQueue` equals (units on disk) minus
(already-persisted tasks for that disk); it calls `SetDiskRepairing` and
sets `repairingDiskID` to the adopted disk's id. -/
theorem collectTask_adopts_first_broken_disk
    (mgr : DiskRepairMgr) (env : CollectEnv) (d : DiskInfo) (ds : List DiskInfo)
    (units : List VunitInfo)
    (h0 : mgr.repairingDiskID = EmptyDiskID) (h1 : mgr.hasRevised = true)
    (hb : env.listBrokenDisks = .ok (d :: ds))
    (hff : env.findFails = false)
    (hu : env.listDiskVolumeUnits = .ok units)
    (hins : env.insertOk = true)
    (hset : env.setDiskRepairing = .ok ())
    (hUnodup : (units.map (fun u => u.vuid)).Nodup)
    (hPnodup : ((tasksOfDisk mgr.taskTbl d.diskID).map (fun t => t.badVuid)).Nodup)
    (hPsub : ∀ t ∈ tasksOfDisk mgr.taskTbl d.diskID,
      t.badVuid ∈ units.map (fun u => u.vuid)) :
    (collectTask mgr env).1.prepareQueue.length
        = mgr.prepareQueue.length + (units.length - (tasksOfDisk mgr.taskTbl d.diskID).length)
      ∧ (∀ t ∈ (collectTask mgr env).1.prepareQueue,
          t ∈ mgr.prepareQueue ∨ t.state = RepairStateInited)
      ∧ (collectTask mgr env).2 = true
      ∧ (collectTask mgr env).1.repairingDiskID = d.diskID := by
  have hres : collectTask mgr env =
      ({ mgr with
          taskTbl := mgr.taskTbl ++ genDiskRepairTasks d units (tasksOfDisk mgr.taskTbl d.diskID)
          prepareQueue := mgr.prepareQueue ++ genDiskRepairTasks d units (tasksOfDisk mgr.taskTbl d.diskID)
          repairingDiskID := d.diskID }, true) := by
    unfold collectTask
    rw [if_neg (by simp [h0]), if_pos ⟨h0, h1⟩, hb, hff, hu]
    simp only [Bool.false_eq_true, if_false, hins, if_true, hset]
  refine ⟨?_, ?_, ?_, ?_⟩
  · rw [hres]
    simp only [List.length_append]
    rw [genDiskRepairTasks_length d units _ hUnodup hPnodup hPsub]
  · rw [hres]
    intro t ht
    rcases List.mem_append.mp ht with h | h
    · exact Or.inl h
    · right
      unfold genDiskRepairTasks at h
      rcases List.mem_map.mp h with ⟨u, _, he⟩
      rw [← he]
      rfl
  · rw [hres]
  · rw [hres]

/-- C1 witness: a concrete adoption tick with two units and one
already-persisted task enqueues exactly one new task and adopts disk 1. -/
theorem collectTask_adopts_first_broken_disk_witness :
    ((collectTask
        { emptyMgr with
          hasRevised := true,
          taskTbl := [{ taskID := "x", state := RepairStateInited, brokenDiskID := 1,
                        idc := "z0", badVuid := ⟨10, 0, 1⟩, destination := none }] }
        { getDiskInfo := .error .mock
          listBrokenDisks := .ok [⟨1, "z0"⟩]
          listDiskVolumeUnits := .ok [⟨⟨10, 0, 1⟩, 1⟩, ⟨⟨10, 1, 1⟩, 1⟩]
          findFails := false
          insertOk := true
          setDiskRepairing := .ok () }).1.prepareQueue.length = 0 + (2 - 1))
      ∧ ((collectTask
        { emptyMgr with
          hasRevised := true,
          taskTbl := [{ taskID := "x", state := RepairStateInited, brokenDiskID := 1,
                        idc := "z0", badVuid := ⟨10, 0, 1⟩, destination := none }] }
        { getDiskInfo := .error .mock
          listBrokenDisks := .ok [⟨1, "z0"⟩]
          listDiskVolumeUnits := .ok [⟨⟨10, 0, 1⟩, 1⟩, ⟨⟨10, 1, 1⟩, 1⟩]
          findFails := false
          insertOk := true
          setDiskRepairing := .ok () }).1.repairingDiskID = 1) := by
  have h := collectTask_adopts_first_broken_disk
    { emptyMgr with
      hasRevised := true,
      taskTbl := [{ taskID := "x", state := RepairStateInited, brokenDiskID := 1,
                    idc := "z0", badVuid := ⟨10, 0, 1⟩, destination := none }] }
    { getDiskInfo := .error .mock
      listBrokenDisks := .ok [⟨1, "z0"⟩]
      listDiskVolumeUnits := .ok [⟨⟨10, 0, 1⟩, 1⟩, ⟨⟨10, 1, 1⟩, 1⟩]
      findFails := false
      insertOk := true
      setDiskRepairing := .ok () }
    ⟨1, "z0"⟩ [] [⟨⟨10, 0, 1⟩, 1⟩, ⟨⟨10, 1, 1⟩, 1⟩]
    rfl rfl rfl rfl rfl rfl rfl (by decide) (by decide) (by decide)
  exact ⟨h.1, h.2.2.2⟩

/-- C2: for every task popped by `popTaskAndPrepare` whose volume's
current vuid at the damaged index differs from the task's bad vuid, the
call transitions the task to `FinishedInAdvance`, persists it, and returns
success; `prepareQueue` shrinks by exactly one and `workQueue` is
unchanged. -/
theorem popTaskAndPrepare_finish_in_advance
    (mgr : DiskRepairMgr) (env : PrepareEnv) (task : VolRepairTask)
    (rest : List VolRepairTask) (vol : VolumeInfoSimple)
    (hq : mgr.prepareQueue = task :: rest)
    (hv : env.getVolumeInfo = .ok vol)
    (hm : vol.vunitVuids.get? task.badVuid.index ≠ some task.badVuid)
    (hup : env.update = .ok ()) :
    (popTaskAndPrepare mgr env).2 = .ok
      ∧ (popTaskAndPrepare mgr env).1.prepareQueue.length + 1 = mgr.prepareQueue.length
      ∧ (popTaskAndPrepare mgr env).1.workQueue = mgr.workQueue
      ∧ (popTaskAndPrepare mgr env).1.taskTbl
          = tblUpdate mgr.taskTbl { task with state := RepairStateFinishedInAdvance } := by
  have hres : popTaskAndPrepare mgr env =
      ({ mgr with
          prepareQueue := rest
          taskTbl := tblUpdate mgr.taskTbl { task with state := RepairStateFinishedInAdvance } },
        .ok) := by
    unfold popTaskAndPrepare
    rw [hq, hv, hup]
    simp only [if_pos hm]
  rw [hres, hq]
  exact ⟨rfl, rfl, rfl, rfl⟩

/-- C2 witness: a concrete queue of one task whose damaged index now holds
a later-epoch vuid is finished in advance; the prepare queue empties and
the work queue stays empty. -/
theorem popTaskAndPrepare_finish_in_advance_witness :
    ((popTaskAndPrepare
        { emptyMgr with
          prepareQueue := [{ taskID := "a", state := RepairStateInited, brokenDiskID := 1,
                             idc := "z0", badVuid := ⟨10, 0, 1⟩, destination := none }],
          taskTbl := [{ taskID := "a", state := RepairStateInited, brokenDiskID := 1,
                        idc := "z0", badVuid := ⟨10, 0, 1⟩, destination := none }] }
        { getVolumeInfo := .ok ⟨[⟨10, 0, 2⟩]⟩
          allocVolumeUnit := .error .mock
          update := .ok () }).2 = .ok)
      ∧ ((popTaskAndPrepare
        { emptyMgr with
          prepareQueue := [{ taskID := "a", state := RepairStateInited, brokenDiskID := 1,
                             idc := "z0", badVuid := ⟨10, 0, 1⟩, destination := none }],
          taskTbl := [{ taskID := "a", state := RepairStateInited, brokenDiskID := 1,
                        idc := "z0", badVuid := ⟨10, 0, 1⟩, destination := none }] }
        { getVolumeInfo := .ok ⟨[⟨10, 0, 2⟩]⟩
          allocVolumeUnit := .error .mock
          update := .ok () }).1.workQueue = []) := by
  have h := popTaskAndPrepare_finish_in_advance
    { emptyMgr with
      prepareQueue := [{ taskID := "a", state := RepairStateInited, brokenDiskID := 1,
                         idc := "z0", badVuid := ⟨10, 0, 1⟩, destination := none }],
      taskTbl := [{ taskID := "a", state := RepairStateInited, brokenDiskID := 1,
                    idc := "z0", badVuid := ⟨10, 0, 1⟩, destination := none }] }
    { getVolumeInfo := .ok ⟨[⟨10, 0, 2⟩]⟩
      allocVolumeUnit := .error .mock
      update := .ok () }
    { taskID := "a", state := RepairStateInited, brokenDiskID := 1,
      idc := "z0", badVuid := ⟨10, 0, 1⟩, destination := none }
    [] ⟨[⟨10, 0, 2⟩]⟩ rfl rfl (by decide) rfl
  exact ⟨h.1, h.2.2.1⟩

/-- C7: for every task for which `popTaskAndPrepare` succeeds via
replacement-unit allocation, assuming the allocation's vuid has an epoch
strictly greater than the bad vuid's epoch, every entry the call adds to
`workQueue` carries a destination vuid whose epoch is strictly greater
than its bad vuid's epoch. -/
theorem popTaskAndPrepare_epoch_increases
    (mgr : DiskRepairMgr) (env : PrepareEnv) (task : VolRepairTask)
    (rest : List VolRepairTask) (vol : VolumeInfoSimple) (nv : Vuid)
    (hq : mgr.prepareQueue = task :: rest)
    (hv : env.getVolumeInfo = .ok vol)
    (hm : vol.vunitVuids.get? task.badVuid.index = some task.badVuid)
    (ha : env.allocVolumeUnit = .ok nv)
    (hep : task.badVuid.epoch < nv.epoch)
    (hup : env.update = .ok ()) :
    (popTaskAndPrepare mgr env).2 = .ok
      ∧ ∀ e ∈ (popTaskAndPrepare mgr env).1.workQueue,
          e ∈ mgr.workQueue
            ∨ ∃ dv, e.2.destination = some dv ∧ e.2.badVuid.epoch < dv.epoch := by
  have hres : popTaskAndPrepare mgr env =
      ({ mgr with
          prepareQueue := rest
          workQueue := mgr.workQueue ++
            [(task.idc, { task with state := RepairStatePrepared, destination := some nv })]
          taskTbl := tblUpdate mgr.taskTbl
            { task with state := RepairStatePrepared, destination := some nv } }, .ok) := by
    unfold popTaskAndPrepare
    rw [hq, hv, ha, hup]
    simp only [if_neg (show ¬(vol.vunitVuids.get? task.badVuid.index ≠ some task.badVuid) from
      by rw [hm]; exact fun h => h rfl)]
  rw [hres]
  refine ⟨rfl, ?_⟩
  intro e he
  rcases List.mem_append.mp he with h | h
  · exact Or.inl h
  · right
    rcases List.mem_singleton.mp h with rfl
    exact ⟨nv, rfl, hep⟩

/-- C7 witness: a concrete prepare with an epoch-2 allocation for an
epoch-1 bad vuid inserts one work-queue entry whose destination epoch
exceeds its bad epoch. -/
theorem popTaskAndPrepare_epoch_increases_witness :
    ((popTaskAndPrepare
        { emptyMgr with
          prepareQueue := [{ taskID := "a", state := RepairStateInited, brokenDiskID := 1,
                             idc := "z0", badVuid := ⟨10, 0, 1⟩, destination := none }] }
        { getVolumeInfo := .ok ⟨[⟨10, 0, 1⟩]⟩
          allocVolumeUnit := .ok ⟨10, 0, 2⟩
          update := .ok () }).2 = .ok)
      ∧ (∀ e ∈ (popTaskAndPrepare
        { emptyMgr with
          prepareQueue := [{ taskID := "a", state := RepairStateInited, brokenDiskID := 1,
                             idc := "z0", badVuid := ⟨10, 0, 1⟩, destination := none }] }
        { getVolumeInfo := .ok ⟨[⟨10, 0, 1⟩]⟩
          allocVolumeUnit := .ok ⟨10, 0, 2⟩
          update := .ok () }).1.workQueue,
          e ∈ ({ emptyMgr with
            prepareQueue := [{ taskID := "a", state := RepairStateInited, brokenDiskID := 1,
                               idc := "z0", badVuid := ⟨10, 0, 1⟩, destination := none }] } :
              DiskRepairMgr).workQueue
            ∨ ∃ dv, e.2.destination = some dv ∧ e.2.badVuid.epoch < dv.epoch) :=
  popTaskAndPrepare_epoch_increases
    { emptyMgr with
      prepareQueue := [{ taskID := "a", state := RepairStateInited, brokenDiskID := 1,
                         idc := "z0", badVuid := ⟨10, 0, 1⟩, destination := none }] }
    { getVolumeInfo := .ok ⟨[⟨10, 0, 1⟩]⟩
      allocVolumeUnit := .ok ⟨10, 0, 2⟩
      update := .ok () }
    { taskID := "a", state := RepairStateInited, brokenDiskID := 1,
      idc := "z0", badVuid := ⟨10, 0, 1⟩, destination := none }
    [] ⟨[⟨10, 0, 1⟩]⟩ ⟨10, 0, 2⟩ rfl rfl rfl rfl (by decide) rfl

/-- C3: whenever `popTaskAndFinish` pops a `WorkCompleted` task and the
volume commit fails with `ErrNewVuidNotMatch` or `ErrStatChunkFailed`, and
reallocation succeeds, the manager reallocates a replacement unit, updates
the task's destination, performs two persistence updates in total, moves
the task from `finishQueue` to `workQueue`, and returns success. -/
theorem popTaskAndFinish_realloc_recovery
    (mgr : DiskRepairMgr) (env : FinishEnv) (task : VolRepairTask)
    (rest : List VolRepairTask) (nv : Vuid) (e : Err)
    (hq : mgr.finishQueue = task :: rest)
    (hst : task.state = RepairStateWorkCompleted)
    (hu1 : env.update1 = .ok ())
    (huv : env.updateVolume = .error e)
    (he : e = Err.newVuidNotMatch ∨ e = Err.statChunkFailed)
    (ha : env.allocVolumeUnit = .ok nv)
    (hu2 : env.update2 = .ok ()) :
    (popTaskAndFinish mgr env).res = .ok
      ∧ (popTaskAndFinish mgr env).updates = 2
      ∧ (popTaskAndFinish mgr env).mgr.finishQueue = rest
      ∧ (popTaskAndFinish mgr env).mgr.workQueue
          = mgr.workQueue ++
            [(task.idc, { task with state := RepairStatePrepared, destination := some nv })] := by
  have hres : popTaskAndFinish mgr env =
      ⟨{ mgr with
          taskTbl := tblUpdate (tblUpdate mgr.taskTbl task)
            { task with state := RepairStatePrepared, destination := some nv }
          finishQueue := rest
          workQueue := mgr.workQueue ++
            [(task.idc, { task with state := RepairStatePrepared, destination := some nv })] },
        .ok, 2⟩ := by
    unfold popTaskAndFinish
    rw [hq, hu1, huv, ha, hu2]
    simp only [if_neg (show ¬(task.state ≠ RepairStateWorkCompleted) from fun h => h hst)]
    rcases he with rfl | rfl <;> simp
  rw [hres]
  exact ⟨rfl, rfl, rfl, rfl⟩

/-- C3 witness: a concrete `WorkCompleted` task whose commit fails with
`ErrNewVuidNotMatch` is reallocated: success, two persistence updates, the
finish queue empties and the work queue gains the task. -/
theorem popTaskAndFinish_realloc_recovery_witness :
    ((popTaskAndFinish
        { emptyMgr with
          finishQueue := [{ taskID := "a", state := RepairStateWorkCompleted, brokenDiskID := 1,
                            idc := "z0", badVuid := ⟨10, 0, 1⟩, destination := some ⟨10, 0, 2⟩ }],
          taskTbl := [{ taskID := "a", state := RepairStateWorkCompleted, brokenDiskID := 1,
                        idc := "z0", badVuid := ⟨10, 0, 1⟩, destination := some ⟨10, 0, 2⟩ }] }
        { update1 := .ok (), updateVolume := .error .newVuidNotMatch,
          allocVolumeUnit := .ok ⟨10, 0, 3⟩, update2 := .ok () }).res = .ok)
      ∧ ((popTaskAndFinish
        { emptyMgr with
          finishQueue := [{ taskID := "a", state := RepairStateWorkCompleted, brokenDiskID := 1,
                            idc := "z0", badVuid := ⟨10, 0, 1⟩, destination := some ⟨10, 0, 2⟩ }],
          taskTbl := [{ taskID := "a", state := RepairStateWorkCompleted, brokenDiskID := 1,
                        idc := "z0", badVuid := ⟨10, 0, 1⟩, destination := some ⟨10, 0, 2⟩ }] }
        { update1 := .ok (), updateVolume := .error .newVuidNotMatch,
          allocVolumeUnit := .ok ⟨10, 0, 3⟩, update2 := .ok () }).updates = 2) := by
  have h := popTaskAndFinish_realloc_recovery
    { emptyMgr with
      finishQueue := [{ taskID := "a", state := RepairStateWorkCompleted, brokenDiskID := 1,
                        idc := "z0", badVuid := ⟨10, 0, 1⟩, destination := some ⟨10, 0, 2⟩ }],
      taskTbl := [{ taskID := "a", state := RepairStateWorkCompleted, brokenDiskID := 1,
                    idc := "z0", badVuid := ⟨10, 0, 1⟩, destination := some ⟨10, 0, 2⟩ }] }
    { update1 := .ok (), updateVolume := .error .newVuidNotMatch,
      allocVolumeUnit := .ok ⟨10, 0, 3⟩, update2 := .ok () }
    { taskID := "a", state := RepairStateWorkCompleted, brokenDiskID := 1,
      idc := "z0", badVuid := ⟨10, 0, 1⟩, destination := some ⟨10, 0, 2⟩ }
    [] ⟨10, 0, 3⟩ Err.newVuidNotMatch
    rfl rfl rfl rfl (Or.inl rfl) rfl rfl
  exact ⟨h.1, h.2.1⟩

/-- C6: every task entering `finishQueue` has state `WorkCompleted` (at
startup `Load` dispatches exactly the `WorkCompleted` tasks there, and a
successful worker `CompleteTask` inserts only `WorkCompleted` records),
and if `popTaskAndFinish` pops a task in any other state the result is a
fatal process abort. -/
theorem finishQueue_work_completed_invariant :
    (∀ (mgr : DiskRepairMgr) (env : FinishEnv) (task : VolRepairTask)
        (rest : List VolRepairTask),
        mgr.finishQueue = task :: rest → task.state ≠ RepairStateWorkCompleted →
        (popTaskAndFinish mgr env).res = .fatal)
      ∧ (∀ (env : LoadEnv) (m : DiskRepairMgr), load env = .ok m →
          ∀ t ∈ m.finishQueue, t.state = RepairStateWorkCompleted)
      ∧ (∀ (mgr : DiskRepairMgr) (idc tid : String),
          ∀ t ∈ (completeTask mgr idc tid).1.finishQueue,
            t ∈ mgr.finishQueue ∨ t.state = RepairStateWorkCompleted) := by
  refine ⟨?_, ?_, ?_⟩
  · intro mgr env task rest hq hst
    unfold popTaskAndFinish
    rw [hq]
    simp only [if_pos hst]
  · intro env m hm t ht
    unfold load at hm
    split at hm
    · cases hm
    · split at hm
      · cases hm
      · split at hm
        · cases hm
          simp [emptyMgr] at ht
        · split at hm
          · cases hm
          · split at hm
            · cases hm
            · split at hm
              · cases hm
              · split at hm
                · cases hm
                · cases hm
                  have := List.mem_filter.mp ht
                  simpa using this.2
  · intro mgr idc tid t ht
    unfold completeTask at ht
    rcases hf : mgr.workQueue.find?
        (fun e => decide (e.1 = idc) && decide (e.2.taskID = tid)) with _ | e <;>
      rw [hf] at ht
    · exact Or.inl ht
    · rcases List.mem_append.mp ht with h | h
      · exact Or.inl h
      · right
        rcases List.mem_singleton.mp h with rfl
        rfl

/-- C6 witness: popping a concrete `Finished` task from `finishQueue` is
fatal; a concrete load dispatches only `WorkCompleted` tasks into
`finishQueue`; a concrete `CompleteTask` inserts a `WorkCompleted`
record. -/
theorem finishQueue_work_completed_invariant_witness :
    ((popTaskAndFinish
        { emptyMgr with
          finishQueue := [{ taskID := "a", state := RepairStateFinished, brokenDiskID := 1,
                            idc := "z0", badVuid := ⟨10, 0, 1⟩, destination := none }] }
        { update1 := .ok (), updateVolume := .ok (),
          allocVolumeUnit := .error .mock, update2 := .ok () }).res = .fatal)
      ∧ ({ taskID := "w", state := RepairStateWorkCompleted, brokenDiskID := 1,
           idc := "z0", badVuid := ⟨10, 0, 1⟩,
           destination := none } : VolRepairTask).state = RepairStateWorkCompleted
      ∧ (({ taskID := "a", state := RepairStateWorkCompleted, brokenDiskID := 1,
            idc := "z0", badVuid := ⟨10, 0, 1⟩, destination := none } : VolRepairTask)
            ∈ ({ emptyMgr with
                workQueue := [("z0", { taskID := "a", state := RepairStatePrepared,
                                       brokenDiskID := 1, idc := "z0", badVuid := ⟨10, 0, 1⟩,
                                       destination := none })] } : DiskRepairMgr).finishQueue
          ∨ ({ taskID := "a", state := RepairStateWorkCompleted, brokenDiskID := 1,
               idc := "z0", badVuid := ⟨10, 0, 1⟩,
               destination := none } : VolRepairTask).state = RepairStateWorkCompleted) := by
  refine ⟨?_, ?_, ?_⟩
  · exact finishQueue_work_completed_invariant.1
      { emptyMgr with
        finishQueue := [{ taskID := "a", state := RepairStateFinished, brokenDiskID := 1,
                          idc := "z0", badVuid := ⟨10, 0, 1⟩, destination := none }] }
      { update1 := .ok (), updateVolume := .ok (),
        allocVolumeUnit := .error .mock, update2 := .ok () }
      { taskID := "a", state := RepairStateFinished, brokenDiskID := 1,
        idc := "z0", badVuid := ⟨10, 0, 1⟩, destination := none }
      [] rfl (by decide)
  · exact finishQueue_work_completed_invariant.2.1
      { findAll := .ok [{ taskID := "w", state := RepairStateWorkCompleted, brokenDiskID := 1,
                          idc := "z0", badVuid := ⟨10, 0, 1⟩, destination := none }],
        findByDiskID := .ok [{ taskID := "w", state := RepairStateWorkCompleted, brokenDiskID := 1,
                               idc := "z0", badVuid := ⟨10, 0, 1⟩, destination := none }] }
      { repairingDiskID := 1, hasRevised := false,
        prepareQueue := [], workQueue := [],
        finishQueue := [{ taskID := "w", state := RepairStateWorkCompleted, brokenDiskID := 1,
                          idc := "z0", badVuid := ⟨10, 0, 1⟩, destination := none }],
        taskTbl := [{ taskID := "w", state := RepairStateWorkCompleted, brokenDiskID := 1,
                      idc := "z0", badVuid := ⟨10, 0, 1⟩, destination := none }] }
      (by decide)
      { taskID := "w", state := RepairStateWorkCompleted, brokenDiskID := 1,
        idc := "z0", badVuid := ⟨10, 0, 1⟩, destination := none }
      (by decide)
  · exact finishQueue_work_completed_invariant.2.2
      { emptyMgr with
        workQueue := [("z0", { taskID := "a", state := RepairStatePrepared, brokenDiskID := 1,
                               idc := "z0", badVuid := ⟨10, 0, 1⟩, destination := none })] }
      "z0" "a"
      { taskID := "a", state := RepairStateWorkCompleted, brokenDiskID := 1,
        idc := "z0", badVuid := ⟨10, 0, 1⟩, destination := none }
      (by decide)

/-- C4: if `checkRepairedAndClear` finds every persisted task of the
repairing disk terminal, the cluster manager reports zero remaining units,
and `SetDiskRepaired` and the bulk delete succeed, then afterwards no
persisted tasks for that disk remain and `repairingDiskID` is cleared; if
any task is non-terminal, or any step fails, the state is left unchanged
for the next tick. -/
theorem checkRepairedAndClear_clears_or_noop
    (mgr : DiskRepairMgr) (env : CheckEnv)
    (hd : mgr.repairingDiskID ≠ EmptyDiskID) :
    ((env.findFails = false) →
     (∀ t ∈ tasksOfDisk mgr.taskTbl mgr.repairingDiskID, isTerminalState t.state = true) →
     env.listDiskVolumeUnits = .ok [] →
     env.setDiskRepaired = .ok () →
     env.deleteOk = true →
       tasksOfDisk (checkRepairedAndClear mgr env).taskTbl mgr.repairingDiskID = []
         ∧ (checkRepairedAndClear mgr env).repairingDiskID = EmptyDiskID)
      ∧ (((∃ t ∈ tasksOfDisk mgr.taskTbl mgr.repairingDiskID, isTerminalState t.state = false)
          ∨ env.findFails = true
          ∨ (∃ e, env.listDiskVolumeUnits = .error e)
          ∨ (∃ u us, env.listDiskVolumeUnits = .ok (u :: us))
          ∨ (∃ e, env.setDiskRepaired = .error e)
          ∨ env.deleteOk = false) →
         checkRepairedAndClear mgr env = mgr) := by
  constructor
  · intro hff hterm hunits hset hdel
    have hany : (tasksOfDisk mgr.taskTbl mgr.repairingDiskID).any
        (fun t => !(isTerminalState t.state)) = false := by
      rw [List.any_eq_false]
      intro t ht
      simp [hterm t ht]
    have hres : checkRepairedAndClear mgr env =
        { mgr with
            taskTbl := mgr.taskTbl.filter
              (fun t => !(decide (t.brokenDiskID = mgr.repairingDiskID)))
            repairingDiskID := EmptyDiskID } := by
      unfold checkRepairedAndClear
      rw [if_neg hd, hff, hunits, hset]
      simp only [Bool.false_eq_true, if_false, hany, List.isEmpty_nil, if_true, hdel]
    rw [hres]
    refine ⟨?_, rfl⟩
    unfold tasksOfDisk
    rw [List.filter_filter]
    apply List.filter_eq_nil_iff.mpr
    intro t ht
    simp
  · intro h
    unfold checkRepairedAndClear
    rw [if_neg hd]
    split
    · rename_i hff
      rfl
    · rename_i hff
      split
      · rfl
      · rename_i hany
        split
        · rfl
        · rename_i units hunits
          split
          · rename_i hemp
            split
            · rfl
            · rename_i hset
              split
              · rename_i hdel
                exfalso
                rcases h with ⟨t, ht, hterm⟩ | h | ⟨e, h⟩ | ⟨u, us, h⟩ | ⟨e, h⟩ | h
                · exact hany (List.any_eq_true.mpr ⟨t, ht, by simp [hterm]⟩)
                · exact hff h
                · rw [h] at hunits; cases hunits
                · rw [h] at hunits
                  cases hunits
                  simp at hemp
                · rw [h] at hset; cases hset
                · rw [h] at hdel; cases hdel
              · rfl
          · rfl

/-- C4 witness: a concrete repairing disk 1 with one `Finished` task, zero
remaining units and succeeding calls is cleared, and the same state with a
failing `SetDiskRepaired` is left unchanged. -/
theorem checkRepairedAndClear_clears_or_noop_witness :
    (tasksOfDisk (checkRepairedAndClear
        { emptyMgr with
          repairingDiskID := 1,
          taskTbl := [{ taskID := "a", state := RepairStateFinished, brokenDiskID := 1,
                        idc := "z0", badVuid := ⟨10, 0, 1⟩, destination := none }] }
        { findFails := false, listDiskVolumeUnits := .ok [],
          setDiskRepaired := .ok (), deleteOk := true }).taskTbl 1 = []
      ∧ (checkRepairedAndClear
        { emptyMgr with
          repairingDiskID := 1,
          taskTbl := [{ taskID := "a", state := RepairStateFinished, brokenDiskID := 1,
                        idc := "z0", badVuid := ⟨10, 0, 1⟩, destination := none }] }
        { findFails := false, listDiskVolumeUnits := .ok [],
          setDiskRepaired := .ok (), deleteOk := true }).repairingDiskID = EmptyDiskID)
      ∧ (checkRepairedAndClear
        { emptyMgr with
          repairingDiskID := 1,
          taskTbl := [{ taskID := "a", state := RepairStateFinished, brokenDiskID := 1,
                        idc := "z0", badVuid := ⟨10, 0, 1⟩, destination := none }] }
        { findFails := false, listDiskVolumeUnits := .ok [],
          setDiskRepaired := .error .mock, deleteOk := true }
        = { emptyMgr with
            repairingDiskID := 1,
            taskTbl := [{ taskID := "a", state := RepairStateFinished, brokenDiskID := 1,
                          idc := "z0", badVuid := ⟨10, 0, 1⟩, destination := none }] }) := by
  refine ⟨?_, ?_⟩
  · exact (checkRepairedAndClear_clears_or_noop
      { emptyMgr with
        repairingDiskID := 1,
        taskTbl := [{ taskID := "a", state := RepairStateFinished, brokenDiskID := 1,
                      idc := "z0", badVuid := ⟨10, 0, 1⟩, destination := none }] }
      { findFails := false, listDiskVolumeUnits := .ok [],
        setDiskRepaired := .ok (), deleteOk := true }
      (by decide)).1 rfl (by decide) rfl rfl rfl
  · exact (checkRepairedAndClear_clears_or_noop
      { emptyMgr with
        repairingDiskID := 1,
        taskTbl := [{ taskID := "a", state := RepairStateFinished, brokenDiskID := 1,
                      idc := "z0", badVuid := ⟨10, 0, 1⟩, destination := none }] }
      { findFails := false, listDiskVolumeUnits := .ok [],
        setDiskRepaired := .error .mock, deleteOk := true }
      (by decide)).2 (Or.inr (Or.inr (Or.inr (Or.inr (Or.inl ⟨.mock, rfl⟩)))))

/-- C5: if `Load` reads a non-empty persisted task set containing two
tasks with distinct source disk ids, with the per-disk cross-query
succeeding and matching the scan's size, `Load` is a fatal invariant
violation that aborts the process, not an ordinary returned error. -/
theorem load_cross_disk_fatal
    (env : LoadEnv) (tasks l : List VolRepairTask) (t1 t2 : VolRepairTask)
    (hfa : env.findAll = .ok tasks)
    (h1 : t1 ∈ tasks) (h2 : t2 ∈ tasks)
    (hne : t1.brokenDiskID ≠ t2.brokenDiskID)
    (hfb : env.findByDiskID = .ok l)
    (hlen : l.length = tasks.length) :
    load env = .fatal := by
  unfold load
  rw [hfa]
  cases hk : tasks.any (fun t => !(isKnownState t.state)) with
  | true => simp [hk]
  | false =>
    simp only [hk, Bool.false_eq_true, if_false]
    cases tasks with
    | nil => cases h1
    | cons t0 ts =>
      rw [hfb]
      have hlen' : ¬((t0 :: ts).length ≠ l.length) := fun h => h hlen.symm
      have hany : ((t0 :: ts).any (fun t => decide (t.brokenDiskID ≠ t0.brokenDiskID))) = true := by
        rw [List.any_eq_true]
        by_cases hd : t1.brokenDiskID = t0.brokenDiskID
        · exact ⟨t2, h2, by simp; omega⟩
        · exact ⟨t1, h1, by simp [hd]⟩
      simp only [if_neg hlen', hany, if_true]

/-- C5 witness: two concrete tasks on disks 1 and 2 with a matching
cross-query make the load fatal. -/
theorem load_cross_disk_fatal_witness :
    load { findAll := .ok
            [{ taskID := "a", state := RepairStateInited, brokenDiskID := 1,
               idc := "z0", badVuid := ⟨1, 0, 1⟩, destination := none },
             { taskID := "b", state := RepairStatePrepared, brokenDiskID := 2,
               idc := "z0", badVuid := ⟨2, 0, 1⟩, destination := none }],
           findByDiskID := .ok
            [{ taskID := "a", state := RepairStateInited, brokenDiskID := 1,
               idc := "z0", badVuid := ⟨1, 0, 1⟩, destination := none },
             { taskID := "b", state := RepairStatePrepared, brokenDiskID := 2,
               idc := "z0", badVuid := ⟨2, 0, 1⟩, destination := none }] } = .fatal :=
  load_cross_disk_fatal _
    [{ taskID := "a", state := RepairStateInited, brokenDiskID := 1,
       idc := "z0", badVuid := ⟨1, 0, 1⟩, destination := none },
     { taskID := "b", state := RepairStatePrepared, brokenDiskID := 2,
       idc := "z0", badVuid := ⟨2, 0, 1⟩, destination := none }]
    [{ taskID := "a", state := RepairStateInited, brokenDiskID := 1,
       idc := "z0", badVuid := ⟨1, 0, 1⟩, destination := none },
     { taskID := "b", state := RepairStatePrepared, brokenDiskID := 2,
       idc := "z0", badVuid := ⟨2, 0, 1⟩, destination := none }]
    { taskID := "a", state := RepairStateInited, brokenDiskID := 1,
      idc := "z0", badVuid := ⟨1, 0, 1⟩, destination := none }
    { taskID := "b", state := RepairStatePrepared, brokenDiskID := 2,
      idc := "z0", badVuid := ⟨2, 0, 1⟩, destination := none }
    rfl (by decide) (by decide) (by decide) rfl rfl

/-- C9: during `Load`, if the full scan returns a non-empty task set of
known states but the disk-id cross-query fails, `Load` returns that error
as an ordinary non-fatal error — even when the scanned tasks span multiple
distinct source disks — because the fatal same-disk check is reached only
after the cross-query succeeds. -/
theorem load_cross_query_error
    (env : LoadEnv) (tasks : List VolRepairTask) (t1 t2 : VolRepairTask) (e : Err)
    (hfa : env.findAll = .ok tasks)
    (hknown : ∀ t ∈ tasks, isKnownState t.state = true)
    (h1 : t1 ∈ tasks) (h2 : t2 ∈ tasks)
    (_hne : t1.brokenDiskID ≠ t2.brokenDiskID)
    (hfb : env.findByDiskID = .error e) :
    load env = .err e := by
  unfold load
  rw [hfa]
  have hk : tasks.any (fun t => !(isKnownState t.state)) = false := by
    rw [List.any_eq_false]
    intro t ht
    simp [hknown t ht]
  simp only [hk, Bool.false_eq_true, if_false]
  cases tasks with
  | nil => cases h1
  | cons t0 ts => rw [hfb]

/-- C9 witness: the concrete scan of tasks on disks 1 and 2 with a failing
cross-query makes the load return the query's error. -/
theorem load_cross_query_error_witness :
    load { findAll := .ok
            [{ taskID := "a", state := RepairStateInited, brokenDiskID := 1,
               idc := "z0", badVuid := ⟨1, 0, 1⟩, destination := none },
             { taskID := "b", state := RepairStatePrepared, brokenDiskID := 2,
               idc := "z0", badVuid := ⟨2, 0, 1⟩, destination := none }],
           findByDiskID := .error .mock } = .err .mock :=
  load_cross_query_error _
    [{ taskID := "a", state := RepairStateInited, brokenDiskID := 1,
       idc := "z0", badVuid := ⟨1, 0, 1⟩, destination := none },
     { taskID := "b", state := RepairStatePrepared, brokenDiskID := 2,
       idc := "z0", badVuid := ⟨2, 0, 1⟩, destination := none }]
    { taskID := "a", state := RepairStateInited, brokenDiskID := 1,
      idc := "z0", badVuid := ⟨1, 0, 1⟩, destination := none }
    { taskID := "b", state := RepairStatePrepared, brokenDiskID := 2,
      idc := "z0", badVuid := ⟨2, 0, 1⟩, destination := none }
    .mock rfl (by decide) (by decide) (by decide) (by decide) rfl

/-- C8: for every `ReclaimTask` call on a task present in `workQueue`, if
the persistence update fails the call still returns success and the task
remains in `workQueue`; only a task not found in `workQueue` yields an
error. -/
theorem reclaimTask_persist_failure_keeps_task
    (mgr : DiskRepairMgr) (idc tid : String) (nd : Vuid) :
    ((∃ e, mgr.workQueue.find?
        (fun x => decide (x.1 = idc) && decide (x.2.taskID = tid)) = some e) →
      (reclaimTask mgr idc tid nd false).2 = .ok
        ∧ (reclaimTask mgr idc tid nd false).1.workQueue.any
            (fun x => decide (x.1 = idc) && decide (x.2.taskID = tid)) = true)
      ∧ (mgr.workQueue.find?
          (fun x => decide (x.1 = idc) && decide (x.2.taskID = tid)) = none →
        (reclaimTask mgr idc tid nd false).2 = .err .notFound) := by
  constructor
  · rintro ⟨e, hf⟩
    have hpred := List.find?_some hf
    have hmem := List.mem_of_find?_eq_some hf
    simp only [Bool.and_eq_true, decide_eq_true_eq] at hpred
    have hres : reclaimTask mgr idc tid nd false =
        ({ mgr with
            workQueue := mgr.workQueue.map
              (fun x => if x.1 = idc ∧ x.2.taskID = tid
                then (x.1, { e.2 with destination := some nd }) else x) }, .ok) := by
      unfold reclaimTask
      rw [hf]
      simp
    rw [hres]
    refine ⟨rfl, ?_⟩
    rw [List.any_eq_true]
    refine ⟨(e.1, { e.2 with destination := some nd }), ?_, ?_⟩
    · apply List.mem_map.mpr
      exact ⟨e, hmem, by rw [if_pos ⟨hpred.1, hpred.2⟩]⟩
    · simp [hpred.1, hpred.2]
  · intro hf
    unfold reclaimTask
    rw [hf]

/-- C8 witness: reclaiming a concrete present task with a failing
persistence update returns success and keeps it in the work queue;
reclaiming an absent task errors. -/
theorem reclaimTask_persist_failure_keeps_task_witness :
    ((reclaimTask
        { emptyMgr with
          workQueue := [("z0", { taskID := "a", state := RepairStatePrepared, brokenDiskID := 1,
                                 idc := "z0", badVuid := ⟨10, 0, 1⟩, destination := none })] }
        "z0" "a" ⟨10, 0, 9⟩ false).2 = .ok
      ∧ (reclaimTask
        { emptyMgr with
          workQueue := [("z0", { taskID := "a", state := RepairStatePrepared, brokenDiskID := 1,
                                 idc := "z0", badVuid := ⟨10, 0, 1⟩, destination := none })] }
        "z0" "a" ⟨10, 0, 9⟩ false).1.workQueue.any
          (fun x => decide (x.1 = "z0") && decide (x.2.taskID = "a")) = true)
      ∧ (reclaimTask emptyMgr "z0" "a" ⟨10, 0, 9⟩ false).2 = .err .notFound := by
  refine ⟨?_, ?_⟩
  · exact (reclaimTask_persist_failure_keeps_task
      { emptyMgr with
        workQueue := [("z0", { taskID := "a", state := RepairStatePrepared, brokenDiskID := 1,
                               idc := "z0", badVuid := ⟨10, 0, 1⟩, destination := none })] }
      "z0" "a" ⟨10, 0, 9⟩).1
      ⟨("z0", { taskID := "a", state := RepairStatePrepared, brokenDiskID := 1,
                idc := "z0", badVuid := ⟨10, 0, 1⟩, destination := none }), by decide⟩
  · exact (reclaimTask_persist_failure_keeps_task emptyMgr "z0" "a" ⟨10, 0, 9⟩).2 rfl

/-- C10: if a repairing disk is set and the persistence query inside
`Progress` fails, `Progress` still returns the repairing disk's id rather
than `EmptyDiskID`. -/
theorem progress_reports_disk_on_query_failure
    (mgr : DiskRepairMgr) (hd : mgr.repairingDiskID ≠ EmptyDiskID) :
    (progress mgr true).1 = mgr.repairingDiskID
      ∧ (progress mgr true).1 ≠ EmptyDiskID := by
  have hres : progress mgr true = (mgr.repairingDiskID, 0, 0) := by
    unfold progress
    rw [if_neg hd, if_pos rfl]
  rw [hres]
  exact ⟨rfl, hd⟩

/-- C10 witness: a concrete manager repairing disk 1 whose progress query
fails still reports disk 1. -/
theorem progress_reports_disk_on_query_failure_witness :
    (progress { emptyMgr with repairingDiskID := 1 } true).1 = 1
      ∧ (progress { emptyMgr with repairingDiskID := 1 } true).1 ≠ EmptyDiskID :=
  progress_reports_disk_on_query_failure
    { emptyMgr with repairingDiskID := 1 } (by decide)

end DiskRepair
